import Mathlib

/-!
Shallow embedding of `netbox/api/viewsets/mixins.py` (NetBox REST API viewset
mixins) and of the Tenant serializers from `tenancy/api/serializers.py`.

Modelling conventions:
* A database row is an `Obj` with a primary key `id` and a payload `val`
  abstracting its remaining columns; the database state `DB` is the ordered
  list of rows (the queryset's default ordering).
* Django querysets are lists; `filter(pk__in=ids)` is `List.filter` over the
  decidable membership of the row's id.
* `transaction.atomic` is the combinator `atomic`: it runs a state-passing
  action; on success the new state is committed, on an exception the original
  state is kept (rollback) and the exception propagates.
* Serializer validation/saving (`get_serializer(...).is_valid` followed by
  `perform_update` / `perform_create`) and `perform_destroy` are methods
  resolved outside this file (in Django REST framework), so they are
  parameters of the embedded operations: an update step is a function
  `Obj → Option Nat → Except Err Obj`, a create step is
  `DB → Nat → Except Err (DB × Obj)`, a destroy step is
  `DB → Obj → Except Err DB`.
* Exceptions are values of `Err` returned through `Except`.
-/

/-- A database row: primary key `id`, remaining columns abstracted as `val`. -/
structure Obj where
  id : Nat
  val : Nat
deriving DecidableEq, Repr

/-- The database state: the ordered list of rows of the model's table. -/
abbrev DB := List Obj

/-- Exceptions raised by the embedded request handlers. -/
inductive Err where
  | validationError
  | objectDoesNotExist
  | http404
  | unboundLocal
deriving DecidableEq, Repr

/-- One element of a bulk request payload: the numeric `id` plus the remaining
attributes of the JSON object, abstracted as `body`.  `BulkOperationSerializer`
only checks that each element carries a numeric id, which is true of every
`ItemPayload` by construction. -/
structure ItemPayload where
  id : Nat
  body : Nat
deriving DecidableEq, Repr

/-- `transaction.atomic`: run `act` on the current state; commit its new state
on success, keep the original state (rollback) and re-raise on exception. -/
def atomic (db : DB) (act : DB → Except Err (DB × α)) : DB × Except Err α :=
  match act db with
  | .ok (db', a) => (db', .ok a)
  | .error e => (db, .error e)

/-- `QueryDict.get(key)` / `QueryDict[key]`: the last value supplied for the
key, or `none` when the key is absent. -/
def getParam (params : List (String × String)) (key : String) : Option String :=
  ((params.filter (fun kv => decide (kv.1 = key))).getLast?).map (fun kv => kv.2)

/-- Saving an updated instance writes it back over the row with its pk. -/
def dbSave (db : DB) (r : Obj) : DB :=
  db.map (fun o => if o.id = r.id then r else o)

namespace BulkUpdateModelMixin

/-- The dict comprehension `{obj.pop('id'): obj for obj in request.data}`:
maps an id to the remaining attributes of the last payload element with that
id (later dict keys override earlier ones). -/
def update_data_map (request_data : List ItemPayload) (i : Nat) : Option Nat :=
  ((request_data.filter (fun p => decide (p.id = i))).getLast?).map (fun p => p.body)

/-- The `for obj in objects` loop of `perform_bulk_update`: for each object,
build a serializer from the object and its update data, validate and save
(`upd`), and collect `serializer.data` in loop order.  The database is
threaded through because each `perform_update` writes a row. -/
def bulkUpdateLoop (upd : Obj → Option Nat → Except Err Obj)
    (update_data : Nat → Option Nat) : DB → List Obj → Except Err (DB × List Obj)
  | db, [] => .ok (db, [])
  | db, obj :: rest =>
    match upd obj (update_data obj.id) with
    | .error e => .error e
    | .ok r =>
      match bulkUpdateLoop upd update_data (dbSave db r) rest with
      | .error e => .error e
      | .ok (db', ds) => .ok (db', r :: ds)

/-- `perform_bulk_update`: the per-object loop wrapped in
`with transaction.atomic()`. -/
def perform_bulk_update (upd : Obj → Option Nat → Except Err Obj) (db : DB)
    (objects : List Obj) (update_data : Nat → Option Nat) :
    DB × Except Err (List Obj) :=
  atomic db (fun db0 => bulkUpdateLoop upd update_data db0 objects)

/-- `bulk_update`: validate the payload shape (always succeeds for typed
`ItemPayload`s), restrict the queryset to the requested pks, build the update
data map, perform the bulk update and answer 200 with the serialized data. -/
def bulk_update (upd : Obj → Option Nat → Except Err Obj) (db : DB)
    (request_data : List ItemPayload) : DB × Except Err (Nat × List Obj) :=
  let ids := request_data.map (fun p => p.id)
  let qs := db.filter (fun o => decide (o.id ∈ ids))
  match perform_bulk_update upd db qs (update_data_map request_data) with
  | (db', .ok data) => (db', .ok (200, data))
  | (db', .error e) => (db', .error e)

end BulkUpdateModelMixin

namespace BulkDestroyModelMixin

/-- The `for obj in objects` loop of `perform_bulk_destroy`: snapshot (no
database effect) and `perform_destroy` (`del`) each object in turn. -/
def destroyLoop (del : DB → Obj → Except Err DB) : DB → List Obj → Except Err (DB × Unit)
  | db, [] => .ok (db, ())
  | db, obj :: rest =>
    match del db obj with
    | .error e => .error e
    | .ok db1 => destroyLoop del db1 rest

/-- `perform_bulk_destroy`: the per-object loop wrapped in
`with transaction.atomic()`. -/
def perform_bulk_destroy (del : DB → Obj → Except Err DB) (db : DB)
    (objects : List Obj) : DB × Except Err Unit :=
  atomic db (fun db0 => destroyLoop del db0 objects)

/-- `bulk_destroy`: validate the payload shape, restrict the queryset to the
requested pks, destroy and answer 204. -/
def bulk_destroy (del : DB → Obj → Except Err DB) (db : DB)
    (request_data : List ItemPayload) : DB × Except Err Nat :=
  let ids := request_data.map (fun p => p.id)
  let qs := db.filter (fun o => decide (o.id ∈ ids))
  match perform_bulk_destroy del db qs with
  | (db', .ok _) => (db', .ok 204)
  | (db', .error e) => (db', .error e)

end BulkDestroyModelMixin

namespace SequentialBulkCreatesMixin

/-- The `for data in request.data` loop of `create`.  The `Option Obj`
argument models the method-local Python variable `serializer`: unbound
(`none`) before the first iteration, rebound on every iteration; the final
binding is returned together with the accumulated `return_data`. -/
def createLoop (doCreate : DB → Nat → Except Err (DB × Obj)) :
    DB → Option Obj → List Nat → Except Err (DB × List Obj × Option Obj)
  | db, ser, [] => .ok (db, [], ser)
  | db, _, d :: rest =>
    match doCreate db d with
    | .error e => .error e
    | .ok (db1, r) =>
      match createLoop doCreate db1 (some r) rest with
      | .error e => .error e
      | .ok (db2, rs, serFin) => .ok (db2, r :: rs, serFin)

/-- `create` for a request whose body is a JSON array (the non-list branch
delegates to the framework and is not modelled).  The whole method body runs
under the `@transaction.atomic` decorator.  After the loop,
`get_success_headers(serializer.data)` reads the loop-local `serializer`,
which is unbound when the array was empty. -/
def create (doCreate : DB → Nat → Except Err (DB × Obj)) (db : DB)
    (request_data : List Nat) : DB × Except Err (Nat × List Obj) :=
  atomic db (fun db0 =>
    match createLoop doCreate db0 none request_data with
    | .error e => .error e
    | .ok (db1, return_data, serFin) =>
      match serFin with
      | none => .error .unboundLocal
      | some _ => .ok (db1, 201, return_data))

end SequentialBulkCreatesMixin

namespace ObjectValidationMixin

/-- The dynamic `type(instance) is list` dispatch of `_validate_objects`. -/
inductive Instances where
  | single (o : Obj)
  | list (os : List Obj)
deriving DecidableEq, Repr

/-- `_validate_objects`: check that the instance, or every instance of the
list, is matched by the view's (permission-scoped) queryset, raising
`ObjectDoesNotExist` otherwise.  The list branch compares
`queryset.filter(pk__in=[obj.pk ...]).count()` with `len(instance)`. -/
def validate_objects (queryset : List Obj) : Instances → Except Err Unit
  | .list os =>
    let conforming_count :=
      (queryset.filter (fun q => decide (q.id ∈ os.map (fun o => o.id)))).length
    if conforming_count ≠ os.length then .error .objectDoesNotExist else .ok ()
  | .single o =>
    if (queryset.filter (fun q => decide (q.id = o.id))).isEmpty then
      .error .objectDoesNotExist
    else .ok ()

end ObjectValidationMixin

/-- An `ExportTemplate` row: the content types it is bound to, and its name. -/
structure ExportTemplateRec where
  content_types : List Nat
  name : String
deriving DecidableEq, Repr

/-- The two possible outcomes of a successful list view. -/
inductive ListResult where
  | rendered (t : ExportTemplateRec) (rows : List Obj)
  | standard (rows : List Obj)
deriving DecidableEq, Repr

namespace ExportTemplatesMixin

/-- `list`: when the `export` query parameter is present, look up the first
export template bound to the model's content type with the requested name;
404 when there is none, otherwise render the filtered queryset through the
template.  Without the parameter, fall through to the standard list. -/
def list (templates : List ExportTemplateRec) (ct : Nat)
    (params : List (String × String)) (filter_queryset : List Obj → List Obj)
    (qs : List Obj) : Except Err ListResult :=
  match getParam params "export" with
  | some exportName =>
    match (templates.filter
        (fun t => decide (ct ∈ t.content_types) && decide (t.name = exportName))).head? with
    | none => .error .http404
    | some et => .ok (.rendered et (filter_queryset qs))
  | none => .ok (.standard (filter_queryset qs))

end ExportTemplatesMixin

/-- The declared field names of `TenantSerializer` (its `Meta.fields`). -/
def TenantSerializer_fields : List String :=
  ["id", "url", "name", "slug", "group", "description", "comments", "tags",
   "custom_fields", "created", "last_updated", "circuit_count", "device_count",
   "ipaddress_count", "prefix_count", "rack_count", "site_count",
   "virtualmachine_count", "vlan_count", "vrf_count", "cluster_count"]

/-- Modelled from the spec: `NestedTenantSerializer` is imported from
`tenancy/api/nested_serializers.py`, which is not part of the reviewed
sources.  The spec describes brief mode as "a reduced-field serialization
variant" returning a lighter nested representation of the object, so the
nested Tenant serializer is modelled as exposing only the identifying fields
of the Tenant data model (id, url, name, slug). -/
def NestedTenantSerializer_fields : List String :=
  ["id", "url", "name", "slug"]

/-- Modelled from the spec: `get_serializer_for_model` lives in
`utilities/api.py`, which is not part of the reviewed sources.  Per the spec
it resolves, for a model and a serializer-name prefix, the matching
serializer class ("swaps the response serializer for a lighter nested
variant"); a serializer class is represented by its list of field names. -/
def get_serializer_for_model (model : String) (pfx : String) :
    Except Err (List String) :=
  if model = "Tenant" ∧ pfx = "Nested" then .ok NestedTenantSerializer_fields
  else if model = "Tenant" ∧ pfx = "" then .ok TenantSerializer_fields
  else .error .validationError

/-- A queryset with its annotations (an insertion-ordered mapping from names
to expressions, abstracted as `Nat`) and its prefetch list. -/
structure QuerySetQ where
  rows : List Obj
  annotations : List (String × Nat)
  prefetches : List String
deriving DecidableEq, Repr

namespace BriefModeMixin

/-- `initialize_request` sets `self.brief` to
`request.method == 'GET' and request.GET.get('brief')`.  The attribute is
only ever used in boolean contexts, so the embedding records its Python
truthiness: `None` (absent key) and the empty string are falsy, every
non-empty string is truthy. -/
def initialize_request (method : String) (params : List (String × String)) : Bool :=
  decide (method = "GET") &&
    (match getParam params "brief" with
     | none => false
     | some v => decide (v ≠ ""))

/-- `get_serializer_class`: in brief mode, look up the nested serializer for
the model (serializer-name prefix `'Nested'`, the value of
`NESTED_SERIALIZER_PREFIX`), falling back to the view's configured
`serializer_class` when none exists or when brief mode is off. -/
def get_serializer_class (brief : Bool) (model : String)
    (serializer_class : List String) : List String :=
  if brief then
    match get_serializer_for_model model "Nested" with
    | .ok s => s
    | .error _ => serializer_class
  else serializer_class

/-- `get_queryset`: in brief mode, pop every annotation whose name is not a
field of the selected serializer (keeping the others in place), clear all
prefetches and install exactly `brief_prefetch_fields`; otherwise return the
queryset unchanged. -/
def get_queryset (brief : Bool) (serializer_fields : List String)
    (brief_prefetch_fields : List String) (qs : QuerySetQ) : QuerySetQ :=
  if brief then
    { rows := qs.rows
      annotations := qs.annotations.filter (fun a => decide (a.1 ∈ serializer_fields))
      prefetches := brief_prefetch_fields }
  else qs

end BriefModeMixin

/-! Concrete serializer-method instances used in witness theorems. -/

/-- An update step that always fails validation. -/
def failUpd : Obj → Option Nat → Except Err Obj := fun _ _ => .error .validationError

/-- A destroy step that always raises. -/
def failDel : DB → Obj → Except Err DB := fun _ _ => .error .validationError

/-- An update-data map with no data. -/
def udNone : Nat → Option Nat := fun _ => none

/-- A create step that appends a fresh row whose pk and value are the payload. -/
def okCreate : DB → Nat → Except Err (DB × Obj) :=
  fun db d => .ok (db ++ [⟨d, d⟩], ⟨d, d⟩)

/-- A create step that always fails validation. -/
def failCreate : DB → Nat → Except Err (DB × Obj) := fun _ _ => .error .validationError

/-- An update step that succeeds without modifying the object. -/
def idUpd : Obj → Option Nat → Except Err Obj := fun o _ => .ok o

/-- A destroy step that removes the row with the object's pk. -/
def delOk : DB → Obj → Except Err DB :=
  fun db o => .ok (db.filter (fun x => decide (x.id ≠ o.id)))

/-! Helper lemmas. -/

theorem atomic_rollback {α : Type} (db : DB) (act : DB → Except Err (DB × α)) (e : Err)
    (h : (atomic db act).2 = .error e) : (atomic db act).1 = db := by
  unfold atomic at h ⊢
  cases hact : act db with
  | ok p =>
    obtain ⟨db', a⟩ := p
    rw [hact] at h
    simp at h
  | error e' => rfl

theorem bulkUpdateLoop_error_of_item_error (upd : Obj → Option Nat → Except Err Obj)
    (ud : Nat → Option Nat) :
    ∀ (objs : List Obj) (db : DB),
      (∃ o ∈ objs, ∃ e, upd o (ud o.id) = .error e) →
      ∃ e', BulkUpdateModelMixin.bulkUpdateLoop upd ud db objs = .error e' := by
  intro objs
  induction objs with
  | nil =>
    intro db h
    rcases h with ⟨o, ho, _⟩
    cases ho
  | cons a rest ih =>
    intro db h
    cases hu : upd a (ud a.id) with
    | error e => exact ⟨e, by simp [BulkUpdateModelMixin.bulkUpdateLoop, hu]⟩
    | ok r =>
      rcases h with ⟨o, ho, e, he⟩
      rcases List.mem_cons.mp ho with rfl | horest
      · rw [hu] at he
        cases he
      · rcases ih (dbSave db r) ⟨o, horest, e, he⟩ with ⟨e', hloop⟩
        exact ⟨e', by simp [BulkUpdateModelMixin.bulkUpdateLoop, hu, hloop]⟩

/-- C1: bulk update and bulk destroy are all-or-nothing: if any single item of
the payload fails validation, or any exception is raised during the
per-object loop of `perform_bulk_update` or `perform_bulk_destroy`, the
database state after the request equals the state before it. -/
theorem bulk_transactions_atomic :
    (∀ (upd : Obj → Option Nat → Except Err Obj) (ud : Nat → Option Nat) (db : DB)
       (objs : List Obj),
       (∃ o ∈ objs, ∃ e, upd o (ud o.id) = .error e) →
       (BulkUpdateModelMixin.perform_bulk_update upd db objs ud).1 = db)
    ∧ (∀ (upd : Obj → Option Nat → Except Err Obj) (ud : Nat → Option Nat) (db : DB)
       (objs : List Obj) (e : Err),
       (BulkUpdateModelMixin.perform_bulk_update upd db objs ud).2 = .error e →
       (BulkUpdateModelMixin.perform_bulk_update upd db objs ud).1 = db)
    ∧ (∀ (del : DB → Obj → Except Err DB) (db : DB) (objs : List Obj) (e : Err),
       (BulkDestroyModelMixin.perform_bulk_destroy del db objs).2 = .error e →
       (BulkDestroyModelMixin.perform_bulk_destroy del db objs).1 = db) := by
  refine ⟨?_, ?_, ?_⟩
  · intro upd ud db objs h
    rcases bulkUpdateLoop_error_of_item_error upd ud objs db h with ⟨e', hl⟩
    have h2 : (atomic db
        (fun db0 => BulkUpdateModelMixin.bulkUpdateLoop upd ud db0 objs)).2 = .error e' := by
      simp only [atomic]
      rw [hl]
    exact atomic_rollback db _ e' h2
  · intro upd ud db objs e h
    exact atomic_rollback db _ e h
  · intro del db objs e h
    exact atomic_rollback db _ e h

theorem bulk_transactions_atomic_witness :
    (BulkUpdateModelMixin.perform_bulk_update failUpd [⟨1, 0⟩] [⟨1, 0⟩] udNone).1 = [⟨1, 0⟩]
    ∧ (BulkUpdateModelMixin.perform_bulk_update failUpd [⟨1, 0⟩] [⟨1, 0⟩] udNone).1 = [⟨1, 0⟩]
    ∧ (BulkDestroyModelMixin.perform_bulk_destroy failDel [⟨1, 0⟩] [⟨1, 0⟩]).1 = [⟨1, 0⟩] :=
  ⟨bulk_transactions_atomic.1 failUpd udNone [⟨1, 0⟩] [⟨1, 0⟩]
      ⟨⟨1, 0⟩, by simp, Err.validationError, rfl⟩,
   bulk_transactions_atomic.2.1 failUpd udNone [⟨1, 0⟩] [⟨1, 0⟩] Err.validationError rfl,
   bulk_transactions_atomic.2.2 failDel [⟨1, 0⟩] [⟨1, 0⟩] Err.validationError rfl⟩

/-- C9: a POST whose body is the empty JSON array does not produce a 201
response with an empty array: the per-item loop never runs, the local
variable `serializer` is unbound when `get_success_headers(serializer.data)`
is evaluated, and the method raises an unhandled error (the transaction
leaves the database unchanged). -/
theorem sequential_create_empty_list_unbound :
    ∀ (doCreate : DB → Nat → Except Err (DB × Obj)) (db : DB),
      SequentialBulkCreatesMixin.create doCreate db [] = (db, .error .unboundLocal) := by
  intro doCreate db
  rfl

/-- C10: brief mode is active exactly when the request method is GET and the
`brief` query parameter has a non-empty value — including `brief=false` and
`brief=0` — and never for non-GET requests or an absent or empty parameter. -/
theorem brief_flag_truthiness :
    (∀ (method : String) (params : List (String × String)),
       BriefModeMixin.initialize_request method params = true ↔
         (method = "GET" ∧ ∃ v, getParam params "brief" = some v ∧ v ≠ ""))
    ∧ BriefModeMixin.initialize_request "GET" [("brief", "false")] = true
    ∧ BriefModeMixin.initialize_request "GET" [("brief", "0")] = true
    ∧ BriefModeMixin.initialize_request "POST" [("brief", "true")] = false
    ∧ BriefModeMixin.initialize_request "GET" [] = false
    ∧ BriefModeMixin.initialize_request "GET" [("brief", "")] = false := by
  refine ⟨?_, rfl, rfl, rfl, rfl, rfl⟩
  intro method params
  unfold BriefModeMixin.initialize_request
  cases h : getParam params "brief" with
  | none => simp [h]
  | some v => simp [h]

/-- C7: in brief mode, `get_queryset` keeps an annotation exactly when its
name is a field of the selected serializer (preserving their relative
order), replaces the prefetch list with exactly `brief_prefetch_fields`, and
leaves the rows untouched; when brief mode is inactive the queryset is
returned unchanged. -/
theorem brief_get_queryset_strips :
    ∀ (fields bpf : List String) (qs : QuerySetQ),
      ((BriefModeMixin.get_queryset true fields bpf qs).annotations.Sublist qs.annotations)
      ∧ (∀ a, a ∈ (BriefModeMixin.get_queryset true fields bpf qs).annotations ↔
            a ∈ qs.annotations ∧ a.1 ∈ fields)
      ∧ (BriefModeMixin.get_queryset true fields bpf qs).prefetches = bpf
      ∧ (BriefModeMixin.get_queryset true fields bpf qs).rows = qs.rows
      ∧ BriefModeMixin.get_queryset false fields bpf qs = qs := by
  intro fields bpf qs
  refine ⟨?_, ?_, rfl, rfl, rfl⟩
  · simp [BriefModeMixin.get_queryset]
  · intro a
    simp [BriefModeMixin.get_queryset, List.mem_filter]

/-- C6: the field names of the serializer selected by `get_serializer_class`
in brief mode for the Tenant model form a strict subset of the field names of
the full (non-brief) serializer. -/
theorem brief_serializer_fields_strict_subset :
    (∀ f ∈ BriefModeMixin.get_serializer_class true "Tenant" TenantSerializer_fields,
       f ∈ BriefModeMixin.get_serializer_class false "Tenant" TenantSerializer_fields)
    ∧ ∃ f ∈ BriefModeMixin.get_serializer_class false "Tenant" TenantSerializer_fields,
        f ∉ BriefModeMixin.get_serializer_class true "Tenant" TenantSerializer_fields := by
  decide

theorem createLoop_length (doCreate : DB → Nat → Except Err (DB × Obj)) :
    ∀ (request_data : List Nat) (db : DB) (ser : Option Obj) (db' : DB)
      (reps : List Obj) (sf : Option Obj),
      SequentialBulkCreatesMixin.createLoop doCreate db ser request_data = .ok (db', reps, sf) →
      reps.length = request_data.length := by
  intro request_data
  induction request_data with
  | nil =>
    intro db ser db' reps sf h
    simp [SequentialBulkCreatesMixin.createLoop] at h
    simp [h.2.1.symm]
  | cons d rest ih =>
    intro db ser db' reps sf h
    cases hc : doCreate db d with
    | error e => simp [SequentialBulkCreatesMixin.createLoop, hc] at h
    | ok p =>
      obtain ⟨db1, r⟩ := p
      cases hl : SequentialBulkCreatesMixin.createLoop doCreate db1 (some r) rest with
      | error e => simp [SequentialBulkCreatesMixin.createLoop, hc, hl] at h
      | ok q =>
        obtain ⟨db2, rs, s2⟩ := q
        simp [SequentialBulkCreatesMixin.createLoop, hc, hl] at h
        rw [← h.2.1]
        simp [ih db1 (some r) db2 rs s2 hl]

/-- C3: for a POST whose body is a JSON array, `create` runs the per-item
loop inside a single transaction, creating objects one at a time in list
order so that each creation observes the database produced by the previous
ones; when the whole method succeeds it returns status 201 with exactly one
created representation per input element, and when the loop raises, the
transaction leaves the database unchanged and the exception propagates. -/
theorem sequential_bulk_create :
    (∀ (doCreate : DB → Nat → Except Err (DB × Obj)) (db : DB) (ser : Option Obj)
       (d : Nat) (rest : List Nat) (db1 : DB) (r : Obj) (db2 : DB) (rs : List Obj)
       (sf : Option Obj),
       doCreate db d = .ok (db1, r) →
       SequentialBulkCreatesMixin.createLoop doCreate db1 (some r) rest = .ok (db2, rs, sf) →
       SequentialBulkCreatesMixin.createLoop doCreate db ser (d :: rest) = .ok (db2, r :: rs, sf))
    ∧ (∀ (doCreate : DB → Nat → Except Err (DB × Obj)) (db : DB) (request_data : List Nat)
       (db' : DB) (st : Nat) (reps : List Obj),
       SequentialBulkCreatesMixin.create doCreate db request_data = (db', .ok (st, reps)) →
       st = 201 ∧ reps.length = request_data.length)
    ∧ (∀ (doCreate : DB → Nat → Except Err (DB × Obj)) (db : DB) (request_data : List Nat)
       (e : Err),
       SequentialBulkCreatesMixin.createLoop doCreate db none request_data = .error e →
       SequentialBulkCreatesMixin.create doCreate db request_data = (db, .error e)) := by
  refine ⟨?_, ?_, ?_⟩
  · intro doCreate db ser d rest db1 r db2 rs sf hc hl
    simp [SequentialBulkCreatesMixin.createLoop, hc, hl]
  · intro doCreate db request_data db' st reps h
    cases hl : SequentialBulkCreatesMixin.createLoop doCreate db none request_data with
    | error e => simp [SequentialBulkCreatesMixin.create, atomic, hl] at h
    | ok q =>
      obtain ⟨db1, rd, sf⟩ := q
      cases sf with
      | none => simp [SequentialBulkCreatesMixin.create, atomic, hl] at h
      | some s =>
        simp [SequentialBulkCreatesMixin.create, atomic, hl] at h
        obtain ⟨-, hst, hreps⟩ := h
        exact ⟨hst.symm,
          by rw [← hreps]; exact createLoop_length doCreate request_data db none db1 rd (some s) hl⟩
  · intro doCreate db request_data e h
    simp [SequentialBulkCreatesMixin.create, atomic, h]

theorem sequential_bulk_create_witness :
    SequentialBulkCreatesMixin.createLoop okCreate [] none [1, 2] =
      .ok ([⟨1, 1⟩, ⟨2, 2⟩], [⟨1, 1⟩, ⟨2, 2⟩], some ⟨2, 2⟩)
    ∧ (201 = 201 ∧ ([⟨1, 1⟩, ⟨2, 2⟩] : List Obj).length = [1, 2].length)
    ∧ SequentialBulkCreatesMixin.create failCreate [⟨3, 3⟩] [1] =
        ([⟨3, 3⟩], .error .validationError) :=
  ⟨sequential_bulk_create.1 okCreate [] none 1 [2] [⟨1, 1⟩] ⟨1, 1⟩
      [⟨1, 1⟩, ⟨2, 2⟩] [⟨2, 2⟩] (some ⟨2, 2⟩) rfl rfl,
   sequential_bulk_create.2.1 okCreate [] [1, 2] [⟨1, 1⟩, ⟨2, 2⟩] 201 [⟨1, 1⟩, ⟨2, 2⟩] rfl,
   sequential_bulk_create.2.2 failCreate [⟨3, 3⟩] [1] Err.validationError rfl⟩

/-- C5: with an `export` query parameter present, `list` answers 404 when no
export template bound to the model's content type bears the requested name,
and otherwise renders the filtered queryset through the first such template
instead of the standard list response. -/
theorem export_template_lookup (templates : List ExportTemplateRec) (ct : Nat)
    (params : List (String × String)) (fq : List Obj → List Obj) (qs : List Obj)
    (nm : String) (hp : getParam params "export" = some nm) :
    ((∀ t ∈ templates, ¬(ct ∈ t.content_types ∧ t.name = nm)) →
       ExportTemplatesMixin.list templates ct params fq qs = .error .http404)
    ∧ ((∃ t ∈ templates, ct ∈ t.content_types ∧ t.name = nm) →
       ∃ t, ct ∈ t.content_types ∧ t.name = nm ∧
         ExportTemplatesMixin.list templates ct params fq qs = .ok (.rendered t (fq qs))) := by
  constructor
  · intro hnone
    have hfil : templates.filter
        (fun t => decide (ct ∈ t.content_types) && decide (t.name = nm)) = [] := by
      apply List.filter_eq_nil_iff.mpr
      intro t ht
      have := hnone t ht
      simp only [Bool.and_eq_true, decide_eq_true_eq]
      tauto
    simp [ExportTemplatesMixin.list, hp, hfil]
  · intro hex
    cases hfil : templates.filter
        (fun t => decide (ct ∈ t.content_types) && decide (t.name = nm)) with
    | nil =>
      exfalso
      rcases hex with ⟨t, ht, hct, hnm⟩
      have : t ∈ templates.filter
          (fun t => decide (ct ∈ t.content_types) && decide (t.name = nm)) := by
        rw [List.mem_filter]
        simp [ht, hct, hnm]
      rw [hfil] at this
      cases this
    | cons t ts =>
      have hmem : t ∈ templates.filter
          (fun t => decide (ct ∈ t.content_types) && decide (t.name = nm)) := by
        rw [hfil]; exact List.mem_cons_self t ts
      rw [List.mem_filter] at hmem
      simp only [Bool.and_eq_true, decide_eq_true_eq] at hmem
      exact ⟨t, hmem.2.1, hmem.2.2, by simp [ExportTemplatesMixin.list, hp, hfil]⟩

theorem export_template_lookup_witness :
    ExportTemplatesMixin.list [] 1 [("export", "csv")] id [] = .error .http404 :=
  (export_template_lookup [] 1 [("export", "csv")] id [] "csv" rfl).1 (by simp)

theorem bulk_update_ok_inv (upd : Obj → Option Nat → Except Err Obj) (db : DB)
    (request_data : List ItemPayload) (db' : DB) (st : Nat) (data : List Obj)
    (h : BulkUpdateModelMixin.bulk_update upd db request_data = (db', .ok (st, data))) :
    st = 200 ∧
    BulkUpdateModelMixin.bulkUpdateLoop upd (BulkUpdateModelMixin.update_data_map request_data) db
      (db.filter (fun o => decide (o.id ∈ request_data.map (fun p => p.id)))) = .ok (db', data) := by
  simp only [BulkUpdateModelMixin.bulk_update, BulkUpdateModelMixin.perform_bulk_update,
    atomic] at h
  cases hl : BulkUpdateModelMixin.bulkUpdateLoop upd
      (BulkUpdateModelMixin.update_data_map request_data) db
      (db.filter (fun o => decide (o.id ∈ request_data.map (fun p => p.id)))) with
  | error e =>
    rw [hl] at h
    simp at h
  | ok q =>
    obtain ⟨db2, ds⟩ := q
    rw [hl] at h
    simp at h
    obtain ⟨h1, h2, h3⟩ := h
    subst h1
    subst h3
    exact ⟨h2.symm, rfl⟩

theorem bulkUpdateLoop_ids (upd : Obj → Option Nat → Except Err Obj)
    (hupd : ∀ o d r, upd o d = .ok r → r.id = o.id) (ud : Nat → Option Nat) :
    ∀ (objs : List Obj) (db db' : DB) (data : List Obj),
      BulkUpdateModelMixin.bulkUpdateLoop upd ud db objs = .ok (db', data) →
      data.map (fun o => o.id) = objs.map (fun o => o.id) := by
  intro objs
  induction objs with
  | nil =>
    intro db db' data h
    simp [BulkUpdateModelMixin.bulkUpdateLoop] at h
    simp [← h.2]
  | cons a rest ih =>
    intro db db' data h
    cases hu : upd a (ud a.id) with
    | error e => simp [BulkUpdateModelMixin.bulkUpdateLoop, hu] at h
    | ok r =>
      cases hl : BulkUpdateModelMixin.bulkUpdateLoop upd ud (dbSave db r) rest with
      | error e => simp [BulkUpdateModelMixin.bulkUpdateLoop, hu, hl] at h
      | ok q =>
        obtain ⟨db2, ds⟩ := q
        simp [BulkUpdateModelMixin.bulkUpdateLoop, hu, hl] at h
        rw [← h.2]
        simp [hupd a (ud a.id) r hu, ih (dbSave db r) db2 ds hl]

/-- C2 (amended): for a valid bulk-update payload whose per-object updates
succeed (with pk-preserving serializer saves), the returned representations
correspond one to one, in queryset order, to the queryset objects whose ids
appear in the payload: the list of returned ids equals the list of matched
queryset ids.  In particular, when the payload ids coincide with the matched
queryset ids in order, the i-th returned id equals the i-th input id. -/
theorem bulk_update_response_ids (upd : Obj → Option Nat → Except Err Obj) (db : DB)
    (request_data : List ItemPayload) (db' : DB) (data : List Obj)
    (hupd : ∀ o d r, upd o d = .ok r → r.id = o.id)
    (h : BulkUpdateModelMixin.bulk_update upd db request_data = (db', .ok (200, data))) :
    data.map (fun o => o.id) =
      (db.filter (fun o => decide (o.id ∈ request_data.map (fun p => p.id)))).map (fun o => o.id)
    ∧ (request_data.map (fun p => p.id) =
        (db.filter (fun o => decide (o.id ∈ request_data.map (fun p => p.id)))).map (fun o => o.id) →
       data.map (fun o => o.id) = request_data.map (fun p => p.id)) := by
  have hinv := bulk_update_ok_inv upd db request_data db' 200 data h
  have hids := bulkUpdateLoop_ids upd hupd _ _ _ _ _ hinv.2
  exact ⟨hids, fun hq => hids.trans hq.symm⟩

theorem bulk_update_input_order_cex :
    (BulkUpdateModelMixin.bulk_update idUpd [⟨1, 0⟩, ⟨2, 0⟩] [⟨2, 5⟩, ⟨1, 7⟩]).2 =
      .ok (200, [⟨1, 0⟩, ⟨2, 0⟩])
    ∧ ([⟨2, 5⟩, ⟨1, 7⟩] : List ItemPayload).map (fun p => p.id) = [2, 1]
    ∧ ([⟨1, 0⟩, ⟨2, 0⟩] : List Obj).map (fun o => o.id) = [1, 2]
    ∧ (1 : Nat) ≠ 2 :=
  ⟨rfl, rfl, rfl, by decide⟩

theorem bulk_update_response_ids_witness :
    List.map (fun o => o.id) ([⟨1, 0⟩] : List Obj) =
      List.map (fun o => o.id)
        (List.filter
          (fun o => decide (o.id ∈ List.map (fun p => p.id) ([⟨1, 5⟩] : List ItemPayload)))
          ([⟨1, 0⟩] : List Obj)) :=
  (bulk_update_response_ids idUpd [⟨1, 0⟩] [⟨1, 5⟩] [⟨1, 0⟩] [⟨1, 0⟩]
    (fun (o : Obj) (d : Option Nat) (r : Obj) hh => by simp [idUpd] at hh; rw [hh]) rfl).1

theorem bulkUpdateLoop_congr_ud (upd : Obj → Option Nat → Except Err Obj)
    (ud1 ud2 : Nat → Option Nat) :
    ∀ (objs : List Obj) (db : DB), (∀ o ∈ objs, ud1 o.id = ud2 o.id) →
      BulkUpdateModelMixin.bulkUpdateLoop upd ud1 db objs =
        BulkUpdateModelMixin.bulkUpdateLoop upd ud2 db objs := by
  intro objs
  induction objs with
  | nil => intro db _; rfl
  | cons a rest ih =>
    intro db hagree
    have ha := hagree a (List.mem_cons_self a rest)
    cases hu : upd a (ud2 a.id) with
    | error e => simp [BulkUpdateModelMixin.bulkUpdateLoop, ha, hu]
    | ok r =>
      simp only [BulkUpdateModelMixin.bulkUpdateLoop, ha, hu]
      rw [ih (dbSave db r) (fun o ho => hagree o (List.mem_cons_of_mem a ho))]

theorem update_data_map_filter_ne (request_data : List ItemPayload) (i j : Nat)
    (hij : j ≠ i) :
    BulkUpdateModelMixin.update_data_map
        (request_data.filter (fun p => decide (p.id ≠ i))) j =
      BulkUpdateModelMixin.update_data_map request_data j := by
  unfold BulkUpdateModelMixin.update_data_map
  rw [List.filter_filter]
  congr 2
  apply List.filter_congr
  intro p _
  by_cases h : p.id = j
  · simp [h, hij]
  · simp [h]

theorem filter_unmatched_id (db : DB) (request_data : List ItemPayload) (i : Nat)
    (hdb : ∀ o ∈ db, o.id ≠ i) :
    db.filter (fun o =>
        decide (o.id ∈ (request_data.filter (fun p => decide (p.id ≠ i))).map (fun p => p.id))) =
      db.filter (fun o => decide (o.id ∈ request_data.map (fun p => p.id))) := by
  apply List.filter_congr
  intro o ho
  have hne := hdb o ho
  rw [decide_eq_decide, List.mem_map, List.mem_map]
  constructor
  · rintro ⟨p, hp, hpo⟩
    rw [List.mem_filter] at hp
    exact ⟨p, hp.1, hpo⟩
  · rintro ⟨p, hp, hpo⟩
    refine ⟨p, ?_, hpo⟩
    rw [List.mem_filter]
    refine ⟨hp, ?_⟩
    simp only [decide_eq_true_eq]
    intro hpi
    exact hne (by rw [← hpo, hpi])

/-- C8: an id in a bulk-update or bulk-destroy payload that matches no object
of the queryset raises no error: the request behaves exactly as if the
offending payload items were absent, the filtered queryset contains no such
object, and (for pk-preserving updates) no returned representation carries
that id. -/
theorem bulk_unmatched_id_ignored (upd : Obj → Option Nat → Except Err Obj)
    (del : DB → Obj → Except Err DB) (db : DB)
    (request_data : List ItemPayload) (i : Nat)
    (_hin : i ∈ request_data.map (fun p => p.id))
    (hdb : ∀ o ∈ db, o.id ≠ i) :
    BulkUpdateModelMixin.bulk_update upd db request_data =
      BulkUpdateModelMixin.bulk_update upd db
        (request_data.filter (fun p => decide (p.id ≠ i)))
    ∧ BulkDestroyModelMixin.bulk_destroy del db request_data =
      BulkDestroyModelMixin.bulk_destroy del db
        (request_data.filter (fun p => decide (p.id ≠ i)))
    ∧ (∀ o ∈ db.filter (fun o => decide (o.id ∈ request_data.map (fun p => p.id))), o.id ≠ i)
    ∧ (∀ (db' : DB) (data : List Obj),
        (∀ o d r, upd o d = .ok r → r.id = o.id) →
        BulkUpdateModelMixin.bulk_update upd db request_data = (db', .ok (200, data)) →
        i ∉ data.map (fun o => o.id)) := by
  have hqs := filter_unmatched_id db request_data i hdb
  refine ⟨?_, ?_, ?_, ?_⟩
  · simp only [BulkUpdateModelMixin.bulk_update]
    rw [hqs]
    have hud : BulkUpdateModelMixin.perform_bulk_update upd db
        (db.filter (fun o => decide (o.id ∈ request_data.map (fun p => p.id))))
        (BulkUpdateModelMixin.update_data_map
          (request_data.filter (fun p => decide (p.id ≠ i)))) =
        BulkUpdateModelMixin.perform_bulk_update upd db
          (db.filter (fun o => decide (o.id ∈ request_data.map (fun p => p.id))))
          (BulkUpdateModelMixin.update_data_map request_data) := by
      unfold BulkUpdateModelMixin.perform_bulk_update
      congr 1
      funext db0
      apply bulkUpdateLoop_congr_ud
      intro o ho
      have hne : o.id ≠ i := hdb o (List.mem_of_mem_filter ho)
      exact update_data_map_filter_ne request_data i o.id hne
    rw [hud]
  · simp only [BulkDestroyModelMixin.bulk_destroy]
    rw [hqs]
  · intro o ho
    exact hdb o (List.mem_of_mem_filter ho)
  · intro db' data hupd h
    have hids := (bulk_update_response_ids upd db request_data db' data hupd h).1
    rw [hids]
    intro hmem
    rw [List.mem_map] at hmem
    obtain ⟨o, ho, hoi⟩ := hmem
    exact hdb o (List.mem_of_mem_filter ho) hoi

theorem bulk_unmatched_id_ignored_witness :
    BulkUpdateModelMixin.bulk_update idUpd [⟨1, 0⟩] [⟨1, 5⟩, ⟨9, 2⟩] =
      BulkUpdateModelMixin.bulk_update idUpd [⟨1, 0⟩]
        (([⟨1, 5⟩, ⟨9, 2⟩] : List ItemPayload).filter (fun p => decide (p.id ≠ 9)))
    ∧ BulkDestroyModelMixin.bulk_destroy delOk [⟨1, 0⟩] [⟨1, 5⟩, ⟨9, 2⟩] =
      BulkDestroyModelMixin.bulk_destroy delOk [⟨1, 0⟩]
        (([⟨1, 5⟩, ⟨9, 2⟩] : List ItemPayload).filter (fun p => decide (p.id ≠ 9))) :=
  ⟨(bulk_unmatched_id_ignored idUpd delOk [⟨1, 0⟩] [⟨1, 5⟩, ⟨9, 2⟩] 9
      (by decide) (by decide)).1,
   (bulk_unmatched_id_ignored idUpd delOk [⟨1, 0⟩] [⟨1, 5⟩, ⟨9, 2⟩] 9
      (by decide) (by decide)).2.1⟩

theorem length_filter_mem_comm (l₁ l₂ : List Nat) (h₁ : l₁.Nodup) (h₂ : l₂.Nodup) :
    (l₁.filter (fun a => decide (a ∈ l₂))).length =
      (l₂.filter (fun a => decide (a ∈ l₁))).length := by
  have hperm : (l₁.filter (fun a => decide (a ∈ l₂))).Perm
      (l₂.filter (fun a => decide (a ∈ l₁))) := by
    apply (List.perm_ext_iff_of_nodup (h₁.filter _) (h₂.filter _)).mpr
    intro a
    simp only [List.mem_filter, decide_eq_true_eq]
    exact and_comm
  exact hperm.length_eq

theorem conforming_count_eq (queryset os : List Obj)
    (hq : (queryset.map (fun o => o.id)).Nodup) (ho : (os.map (fun o => o.id)).Nodup) :
    (queryset.filter (fun q => decide (q.id ∈ os.map (fun o => o.id)))).length = os.length ↔
      ∀ o ∈ os, ∃ q ∈ queryset, q.id = o.id := by
  have hA : (queryset.filter (fun q => decide (q.id ∈ os.map (fun o => o.id)))).length =
      ((queryset.map (fun o => o.id)).filter
        (fun a => decide (a ∈ os.map (fun o => o.id)))).length := by
    rw [← List.countP_eq_length_filter, ← List.countP_eq_length_filter, List.countP_map]
    rfl
  have hB := length_filter_mem_comm (queryset.map (fun o => o.id)) (os.map (fun o => o.id)) hq ho
  rw [hA, hB]
  constructor
  · intro hlen o hos
    by_contra hnone
    push_neg at hnone
    have hmem : o.id ∈ os.map (fun o => o.id) := List.mem_map.mpr ⟨o, hos, rfl⟩
    have hnotin : o.id ∉ queryset.map (fun o => o.id) := by
      rw [List.mem_map]
      rintro ⟨q, hq', hq''⟩
      exact hnone q hq' hq''
    have hlt : ((os.map (fun o => o.id)).filter
        (fun a => decide (a ∈ queryset.map (fun o => o.id)))).length <
        (os.map (fun o => o.id)).length :=
      List.length_filter_lt_length_iff_exists.mpr ⟨o.id, hmem, by simpa⟩
    rw [List.length_map] at hlt
    omega
  · intro hall
    have hself : (os.map (fun o => o.id)).filter
        (fun a => decide (a ∈ queryset.map (fun o => o.id))) = os.map (fun o => o.id) := by
      apply List.filter_eq_self.mpr
      intro a ha
      rw [List.mem_map] at ha
      obtain ⟨o, hos, rfl⟩ := ha
      obtain ⟨q, hqin, hqid⟩ := hall o hos
      simp only [decide_eq_true_eq, List.mem_map]
      exact ⟨q, hqin, hqid⟩
    rw [hself, List.length_map]

/-- C4 (amended): `_validate_objects` either returns normally or raises
`ObjectDoesNotExist`; a single instance passes exactly when its pk is matched
by the view's queryset; a list of instances whose pks are pairwise distinct
(against a queryset with unique pks, a database invariant) passes exactly
when every instance's pk is matched, and raises otherwise.  Without the
distinctness proviso the original claim fails: a list repeating one matched
instance raises even though every instance is matched. -/
theorem validate_objects_permission_check (queryset : List Obj)
    (hq : (queryset.map (fun o => o.id)).Nodup) :
    (∀ x, ObjectValidationMixin.validate_objects queryset x = .ok () ∨
       ObjectValidationMixin.validate_objects queryset x = .error .objectDoesNotExist)
    ∧ (∀ o, ObjectValidationMixin.validate_objects queryset (.single o) = .ok () ↔
        ∃ q ∈ queryset, q.id = o.id)
    ∧ (∀ os, (os.map (fun o => o.id)).Nodup →
        (ObjectValidationMixin.validate_objects queryset (.list os) = .ok () ↔
          ∀ o ∈ os, ∃ q ∈ queryset, q.id = o.id)) := by
  refine ⟨?_, ?_, ?_⟩
  · intro x
    cases x with
    | single o =>
      simp only [ObjectValidationMixin.validate_objects]
      split
      · exact Or.inr rfl
      · exact Or.inl rfl
    | list os =>
      simp only [ObjectValidationMixin.validate_objects]
      split
      · exact Or.inr rfl
      · exact Or.inl rfl
  · intro o
    simp only [ObjectValidationMixin.validate_objects]
    by_cases hemp : (queryset.filter (fun q => decide (q.id = o.id))).isEmpty
    · rw [if_pos hemp]
      constructor
      · intro h
        cases h
      · rintro ⟨q, hqin, hqid⟩
        exfalso
        rw [List.isEmpty_iff] at hemp
        have hq' : q ∈ queryset.filter (fun q => decide (q.id = o.id)) :=
          List.mem_filter.mpr ⟨hqin, by simp [hqid]⟩
        rw [hemp] at hq'
        cases hq'
    · rw [if_neg hemp]
      constructor
      · intro _
        have hne : queryset.filter (fun q => decide (q.id = o.id)) ≠ [] := by
          intro hnil
          exact hemp (by rw [List.isEmpty_iff]; exact hnil)
        rcases List.exists_mem_of_ne_nil _ hne with ⟨q, hq'⟩
        rw [List.mem_filter] at hq'
        exact ⟨q, hq'.1, of_decide_eq_true hq'.2⟩
      · intro _
        rfl
  · intro os hos
    simp only [ObjectValidationMixin.validate_objects]
    by_cases hc : (queryset.filter (fun q => decide (q.id ∈ os.map (fun o => o.id)))).length
        = os.length
    · rw [if_neg (not_not_intro hc)]
      constructor
      · intro _
        exact (conforming_count_eq queryset os hq hos).mp hc
      · intro _
        rfl
    · rw [if_pos hc]
      constructor
      · intro h
        cases h
      · intro hall
        exact absurd ((conforming_count_eq queryset os hq hos).mpr hall) hc

theorem validate_objects_duplicate_cex :
    ObjectValidationMixin.validate_objects [⟨1, 0⟩] (.single ⟨1, 0⟩) = .ok ()
    ∧ ObjectValidationMixin.validate_objects [⟨1, 0⟩]
        (.list [⟨1, 0⟩, ⟨1, 0⟩]) = .error .objectDoesNotExist :=
  ⟨rfl, rfl⟩

theorem validate_objects_permission_check_witness :
    ObjectValidationMixin.validate_objects [⟨3, 0⟩] (.single ⟨3, 0⟩) = .ok ()
    ∧ ObjectValidationMixin.validate_objects [⟨1, 0⟩, ⟨2, 4⟩] (.list [⟨2, 4⟩]) = .ok () :=
  ⟨((validate_objects_permission_check [⟨3, 0⟩] (by decide)).2.1 ⟨3, 0⟩).mpr
      ⟨⟨3, 0⟩, by decide, rfl⟩,
   ((validate_objects_permission_check [⟨1, 0⟩, ⟨2, 4⟩] (by decide)).2.2 [⟨2, 4⟩]
      (by decide)).mpr (by decide)⟩
